import Mathlib

/-!
Verification development for the SSD multi-layer energy engine
(`ssd_core_engine_v5.py`, class `SSDCoreEngineV5`) and the stochastic leap
probability of `ssd_werewolf_game_v3.py` (`check_probabilistic_jump`).

Modelling conventions:
* Machine floats are modelled by exact rationals (`ℚ`); the stochastic jump
  probability, which genuinely uses `exp`, is modelled over `ℝ`.
* Every 3-component pressure vector enters `step()` only through
  `np.linalg.norm(p)`, `np.linalg.norm(p - kappa*p)` (a difference of
  parallel vectors, whose norm is `|1 - kappa| * ‖p‖ = |‖p‖ - kappa*‖p‖|`
  for `kappa*‖p‖` the stored reaction magnitude), and `np.linalg.norm(F)`.
  Each vector is therefore represented by its Euclidean norm, a nonnegative
  rational; the stored `p_*`, `j_*`, `F_direct` fields hold these magnitudes
  (with the reaction `j = kappa * p` kept as the signed scalar
  `kappa * ‖p‖` along the direction of `p`).
* Python `dict` results (`interlayer transfers`, `social coupling`,
  `structural powers`, leap result) are modelled as structures with one
  field per dictionary key.
* The engine object's own mutable statistics (`self.total_*`, `self.time`)
  are modelled by an explicit `EngineStats` value threaded through `step`.
-/

/-- State vector of `SSDStateV5` (dataclass, `ssd_core_engine_v5.py`).
Vector fields are represented by their norms as explained in the header. -/
structure SSDStateV5 where
  E_direct : ℚ := 0
  E_physical : ℚ := 0
  E_base : ℚ := 0
  E_core : ℚ := 0
  E_upper : ℚ := 0
  kappa_physical : ℚ := 1
  kappa_base : ℚ := 1
  kappa_core : ℚ := 1
  kappa_upper : ℚ := 1
  F_direct : ℚ := 0
  p_physical : ℚ := 0
  p_base : ℚ := 0
  p_core : ℚ := 0
  p_upper : ℚ := 0
  j_direct : ℚ := 0
  j_physical : ℚ := 0
  j_base : ℚ := 0
  j_core : ℚ := 0
  j_upper : ℚ := 0
  is_critical_physical : Bool := false
  is_critical_base : Bool := false
  is_critical_core : Bool := false
  is_critical_upper : Bool := false
  dominant_leap_layer : String := "NONE"
  leap_type : String := "NO_LEAP"
  sp_physical : ℚ := 0
  sp_base : ℚ := 0
  sp_core : ℚ := 0
  sp_upper : ℚ := 0
  E_physical_flow : ℚ := 0
  E_base_flow : ℚ := 0
  E_core_flow : ℚ := 0
  E_upper_flow : ℚ := 0
  E_direct_flow : ℚ := 0
  conversion_physical2d : ℚ := 0
  conversion_base2d : ℚ := 0
  conversion_core2d : ℚ := 0
  conversion_upper2d : ℚ := 0
  conversion_d2physical : ℚ := 0
  conversion_d2base : ℚ := 0
  conversion_d2core : ℚ := 0
  conversion_d2upper : ℚ := 0
  transfer_upper2base : ℚ := 0
  transfer_upper2core : ℚ := 0
  transfer_base2upper : ℚ := 0
  transfer_base2core : ℚ := 0
  transfer_core2base : ℚ := 0
  transfer_core2upper : ℚ := 0
  transfer_physical2base : ℚ := 0
  transfer_physical2upper : ℚ := 0
  social_coupling_physical : ℚ := 0
  social_coupling_base : ℚ := 0
  social_coupling_core : ℚ := 0
  social_coupling_upper : ℚ := 0
  kappa_coupling_physical : ℚ := 0
  kappa_coupling_base : ℚ := 0
  kappa_coupling_core : ℚ := 0
  kappa_coupling_upper : ℚ := 0


/-- Parameter set `SSDParametersV5` with the source defaults
(`ssd_core_engine_v5.py`, lines 190-322). -/
structure SSDParametersV5 where
  gamma_physical2d : ℚ := 15/100
  gamma_d2physical : ℚ := 1/100
  gamma_base2d : ℚ := 8/100
  gamma_core2d : ℚ := 5/100
  gamma_upper2d : ℚ := 3/100
  gamma_d2base : ℚ := 3/100
  gamma_d2core : ℚ := 2/100
  gamma_d2upper : ℚ := 4/100
  gamma_upper2base : ℚ := -4/100
  gamma_upper2core : ℚ := 3/100
  gamma_base2upper : ℚ := 5/100
  gamma_base2core : ℚ := -2/100
  gamma_core2base : ℚ := 4/100
  gamma_core2upper : ℚ := 2/100
  gamma_physical2base : ℚ := 6/100
  gamma_physical2upper : ℚ := 3/100
  Theta_physical : ℚ := 200
  Theta_base : ℚ := 150
  Theta_core : ℚ := 100
  Theta_upper : ℚ := 80
  beta_physical : ℚ := 1/1000
  beta_base : ℚ := 5/1000
  beta_core : ℚ := 1/100
  beta_upper : ℚ := 2/100
  eta_physical : ℚ := 9/10
  eta_base : ℚ := 8/10
  eta_core : ℚ := 5/10
  eta_upper : ℚ := 3/10
  alpha_d : ℚ := 1
  alpha_physical : ℚ := 1
  alpha_base : ℚ := 1
  alpha_core : ℚ := 1
  alpha_upper : ℚ := 1
  rho_d : ℚ := 1/10
  rho_physical : ℚ := 1/10
  rho_base : ℚ := 1/10
  rho_core : ℚ := 1/10
  rho_upper : ℚ := 1/10
  lambda_physical : ℚ := 5/100
  lambda_base : ℚ := 5/100
  lambda_core : ℚ := 5/100
  lambda_upper : ℚ := 5/100
  kappa_min_physical : ℚ := 9/10
  kappa_min_base : ℚ := 8/10
  kappa_min_core : ℚ := 5/10
  kappa_min_upper : ℚ := 3/10
  phase_transition_multiplier_physical : ℚ := 20
  enable_phase_transition : Bool := true
  phase_transition_multiplier_base : ℚ := 15
  phase_transition_multiplier_core : ℚ := 10
  phase_transition_multiplier_upper : ℚ := 8
  use_integrated_leap_detection : Bool := true
  dynamic_theta_sensitivity : ℚ := 3/10
  enable_interlayer_transfer : Bool := true
  interlayer_transfer_strength : ℚ := 1
  enable_social_coupling : Bool := true
  zeta_physical : ℚ := 2/100
  zeta_base : ℚ := 8/100
  zeta_core : ℚ := 5/100
  zeta_upper : ℚ := 3/100
  xi_physical : ℚ := 1/100
  xi_base : ℚ := 4/100
  xi_core : ℚ := 6/100
  xi_upper : ℚ := 5/100
  omega_physical : ℚ := -1/100
  omega_base : ℚ := -6/100
  omega_core : ℚ := -3/100
  omega_upper : ℚ := -2/100
  social_coupling_strength : ℚ := 1
  cooperation_threshold : ℚ := 1/2
  reservoir_capacity : ℚ := 1000
  use_direct_action : Bool := true
  use_indirect_action : Bool := true


/-- Accumulated statistics owned by the engine object
(`SSDCoreEngineV5.__init__`, lines 340-353): conversion and decay totals and
the engine clock, all mutated by `step()`. -/
structure EngineStats where
  total_conversion_physical2d : ℚ := 0
  total_conversion_base2d : ℚ := 0
  total_conversion_core2d : ℚ := 0
  total_conversion_upper2d : ℚ := 0
  total_conversion_d2physical : ℚ := 0
  total_conversion_d2base : ℚ := 0
  total_conversion_d2core : ℚ := 0
  total_conversion_d2upper : ℚ := 0
  total_decay_physical : ℚ := 0
  total_decay_base : ℚ := 0
  total_decay_core : ℚ := 0
  total_decay_upper : ℚ := 0
  time : ℚ := 0


/-- Result dictionary of `_compute_interlayer_transfers` (one field per key). -/
structure InterlayerTransfers where
  upper2base : ℚ := 0
  upper2core : ℚ := 0
  base2upper : ℚ := 0
  base2core : ℚ := 0
  core2base : ℚ := 0
  core2upper : ℚ := 0
  physical2base : ℚ := 0
  physical2upper : ℚ := 0

/-- Embedding of `SSDCoreEngineV5._compute_interlayer_transfers` (lines 642-697):
each directed pair moves `gamma_pair * E_source * interlayer_transfer_strength`. -/
def compute_interlayer_transfers (p : SSDParametersV5) (s : SSDStateV5) :
    InterlayerTransfers :=
  let strength := p.interlayer_transfer_strength
  { upper2base := p.gamma_upper2base * s.E_upper * strength
    upper2core := p.gamma_upper2core * s.E_upper * strength
    base2upper := p.gamma_base2upper * s.E_base * strength
    base2core := p.gamma_base2core * s.E_base * strength
    core2base := p.gamma_core2base * s.E_core * strength
    core2upper := p.gamma_core2upper * s.E_core * strength
    physical2base := p.gamma_physical2base * s.E_physical * strength
    physical2upper := p.gamma_physical2upper * s.E_physical * strength }

/-- Net interlayer-transfer contribution to `dE_physical` in `step()`
(lines 546-550): outflows to BASE and UPPER. -/
def transferNet_physical (t : InterlayerTransfers) : ℚ :=
  -t.physical2base - t.physical2upper

/-- Net interlayer-transfer contribution to `dE_base` (lines 553-559). -/
def transferNet_base (t : InterlayerTransfers) : ℚ :=
  t.upper2base + t.core2base + t.physical2base - t.base2upper - t.base2core

/-- Net interlayer-transfer contribution to `dE_core` (lines 562-567). -/
def transferNet_core (t : InterlayerTransfers) : ℚ :=
  t.upper2core + t.base2core - t.core2base - t.core2upper

/-- Net interlayer-transfer contribution to `dE_upper` (lines 570-576). -/
def transferNet_upper (t : InterlayerTransfers) : ℚ :=
  t.base2upper + t.core2upper + t.physical2upper - t.upper2base - t.upper2core

/-- Result dictionary of `_compute_social_coupling` (one field per key). -/
structure SocialCoupling where
  physical_energy : ℚ := 0
  base_energy : ℚ := 0
  core_energy : ℚ := 0
  upper_energy : ℚ := 0
  physical_kappa : ℚ := 0
  base_kappa : ℚ := 0
  core_kappa : ℚ := 0
  upper_kappa : ℚ := 0

/-- Contribution of one `(other, relation)` pair in the loop body of
`_compute_social_coupling` (lines 764-832): cooperation when
`relation > cooperation_threshold`, competition when
`relation < -cooperation_threshold`, nothing in the neutral band. -/
def couplingOfPair (p : SSDParametersV5) (s other : SSDStateV5)
    (relation : ℚ) : SocialCoupling :=
  let strength := p.social_coupling_strength
  if p.cooperation_threshold < relation then
    let rf := relation
    { physical_energy := (other.E_physical - s.E_physical) * p.zeta_physical * rf * strength
      base_energy := (other.E_base - s.E_base) * p.zeta_base * rf * strength
      core_energy := (other.E_core - s.E_core) * p.zeta_core * rf * strength
      upper_energy := (other.E_upper - s.E_upper) * p.zeta_upper * rf * strength
      physical_kappa := (other.kappa_physical - s.kappa_physical) * p.xi_physical * rf * strength
      base_kappa := (other.kappa_base - s.kappa_base) * p.xi_base * rf * strength
      core_kappa := (other.kappa_core - s.kappa_core) * p.xi_core * rf * strength
      upper_kappa := (other.kappa_upper - s.kappa_upper) * p.xi_upper * rf * strength }
  else if relation < -p.cooperation_threshold then
    let rf := |relation|
    { physical_energy := p.omega_physical * other.E_physical * rf * strength
      base_energy := p.omega_base * other.E_base * rf * strength
      core_energy := p.omega_core * other.E_core * rf * strength
      upper_energy := p.omega_upper * other.E_upper * rf * strength }
  else
    {}

/-- Pointwise sum of two coupling dictionaries (the `+=` accumulation). -/
def addCoupling (a b : SocialCoupling) : SocialCoupling :=
  { physical_energy := a.physical_energy + b.physical_energy
    base_energy := a.base_energy + b.base_energy
    core_energy := a.core_energy + b.core_energy
    upper_energy := a.upper_energy + b.upper_energy
    physical_kappa := a.physical_kappa + b.physical_kappa
    base_kappa := a.base_kappa + b.base_kappa
    core_kappa := a.core_kappa + b.core_kappa
    upper_kappa := a.upper_kappa + b.upper_kappa }

/-- Embedding of `SSDCoreEngineV5._compute_social_coupling` (lines 699-834): zero when
social coupling is disabled or the other-agent list is empty, otherwise the
sum over `zip(other_states, relationships)` of each pair's contribution. -/
def compute_social_coupling (p : SSDParametersV5) (s : SSDStateV5)
    (others : List SSDStateV5) (rels : List ℚ) : SocialCoupling :=
  if !p.enable_social_coupling || others.isEmpty then {}
  else (List.zip others rels).foldl
    (fun acc pr => addCoupling acc (couplingOfPair p s pr.1 pr.2)) {}

/-- Per-layer structural powers computed by `_calculate_structural_powers`
(lines 836-909): `power = ‖pressure‖ * energy * kappa * R` with
`R = 1000, 100, 10, 1` for PHYSICAL, BASE, CORE, UPPER. -/
structure PowersV5 where
  physical : ℚ
  base : ℚ
  core : ℚ
  upper : ℚ

/-- Embedding of `SSDCoreEngineV5._calculate_structural_powers` (pressure vectors given
by their norms). -/
def calculate_structural_powers (s : SSDStateV5)
    (np_physical np_base np_core np_upper : ℚ) : PowersV5 :=
  { physical := np_physical * s.E_physical * s.kappa_physical * 1000
    base := np_base * s.E_base * s.kappa_base * 100
    core := np_core * s.E_core * s.kappa_core * 10
    upper := np_upper * s.E_upper * s.kappa_upper * 1 }

/-- Embedding of `SSDCoreEngineV5._compute_dynamic_theta` (lines 911-939). -/
def compute_dynamic_theta (p : SSDParametersV5)
    (base_theta structural_power kappa R : ℚ) : ℚ :=
  let resistance := kappa * R
  let influence_factor := structural_power / (resistance + 1)
  let dynamic_theta :=
    base_theta * (1 - p.dynamic_theta_sensitivity * min 1 influence_factor)
  max (base_theta * (3/10)) dynamic_theta

/-- Result dictionary of `_integrated_leap_detection`. -/
structure LeapResult where
  is_critical_physical : Bool := false
  is_critical_base : Bool := false
  is_critical_core : Bool := false
  is_critical_upper : Bool := false
  dominant_layer : String := "NONE"
  leap_type : String := "NO_LEAP"

/-- The `critical_layers` dictionary of `_integrated_leap_detection`
(lines 992-1005) as an association list in Python insertion order
PHYSICAL, BASE, CORE, UPPER: a layer is critical iff its energy is below
its dynamic threshold. -/
def criticalList (p : SSDParametersV5) (s : SSDStateV5) (powers : PowersV5) :
    List (String × ℚ) :=
  (if s.E_physical <
      compute_dynamic_theta p p.Theta_physical powers.physical s.kappa_physical 1000
   then [("PHYSICAL", powers.physical)] else []) ++
  (if s.E_base <
      compute_dynamic_theta p p.Theta_base powers.base s.kappa_base 100
   then [("BASE", powers.base)] else []) ++
  (if s.E_core <
      compute_dynamic_theta p p.Theta_core powers.core s.kappa_core 10
   then [("CORE", powers.core)] else []) ++
  (if s.E_upper <
      compute_dynamic_theta p p.Theta_upper powers.upper s.kappa_upper 1
   then [("UPPER", powers.upper)] else [])

/-- Python's `max(items, key=lambda x: x[1])`: scan left to right, replace
the current best only on a strictly greater value (so ties keep the
earlier element). -/
def pickFirstMax (best : String × ℚ) : List (String × ℚ) → String × ℚ
  | [] => best
  | y :: ys => pickFirstMax (if best.2 < y.2 then y else best) ys

/-- Embedding of `SSDCoreEngineV5._integrated_leap_detection` (lines 941-1029). -/
def integrated_leap_detection (p : SSDParametersV5) (s : SSDStateV5)
    (powers : PowersV5) : LeapResult :=
  let cl := criticalList p s powers
  match cl with
  | [] => {}
  | x :: xs =>
    let dominant := (pickFirstMax x xs).1
    { is_critical_physical := cl.any fun y => y.1 == "PHYSICAL"
      is_critical_base := cl.any fun y => y.1 == "BASE"
      is_critical_core := cl.any fun y => y.1 == "CORE"
      is_critical_upper := cl.any fun y => y.1 == "UPPER"
      dominant_layer := dominant
      leap_type := "LEAP_" ++ dominant }

/-- Embedding of `SSDCoreEngineV5._compute_dynamic_gamma` (lines 1031-1077): the dominant
critical layer's conversion rate is multiplied by its full phase-transition
multiplier, other critical layers by `1 + multiplier * 0.5`. -/
def compute_dynamic_gamma (p : SSDParametersV5) (leap : LeapResult) :
    ℚ × ℚ × ℚ × ℚ :=
  if leap.leap_type == "NO_LEAP" then
    (p.gamma_physical2d, p.gamma_base2d, p.gamma_core2d, p.gamma_upper2d)
  else
    let gp := p.gamma_physical2d
    let gb := p.gamma_base2d
    let gc := p.gamma_core2d
    let gu := p.gamma_upper2d
    let gp := if leap.dominant_layer == "PHYSICAL" && leap.is_critical_physical
      then gp * p.phase_transition_multiplier_physical else gp
    let gb := if leap.dominant_layer == "BASE" && leap.is_critical_base
      then gb * p.phase_transition_multiplier_base else gb
    let gc := if leap.dominant_layer == "CORE" && leap.is_critical_core
      then gc * p.phase_transition_multiplier_core else gc
    let gu := if leap.dominant_layer == "UPPER" && leap.is_critical_upper
      then gu * p.phase_transition_multiplier_upper else gu
    let gp := if leap.is_critical_physical && !(leap.dominant_layer == "PHYSICAL")
      then gp * (1 + p.phase_transition_multiplier_physical * (1/2)) else gp
    let gb := if leap.is_critical_base && !(leap.dominant_layer == "BASE")
      then gb * (1 + p.phase_transition_multiplier_base * (1/2)) else gb
    let gc := if leap.is_critical_core && !(leap.dominant_layer == "CORE")
      then gc * (1 + p.phase_transition_multiplier_core * (1/2)) else gc
    let gu := if leap.is_critical_upper && !(leap.dominant_layer == "UPPER")
      then gu * (1 + p.phase_transition_multiplier_upper * (1/2)) else gu
    (gp, gb, gc, gu)

/-- Combined outcome of the leap-detection stage of `step()`: criticality
flags, dominant-layer labels, the (possibly amplified) conversion rates, and
in integrated mode the structural powers recorded into the state. -/
structure LeapStageResult where
  is_critical_physical : Bool := false
  is_critical_base : Bool := false
  is_critical_core : Bool := false
  is_critical_upper : Bool := false
  dominant_layer : String := "NONE"
  leap_type : String := "NO_LEAP"
  gammas : ℚ × ℚ × ℚ × ℚ
  powers : Option PowersV5 := none

/-- Embedding of `SSDCoreEngineV5._legacy_phase_transition` (lines 1079-1118): static
thresholds only; always reports `dominant_leap_layer = "NONE"` and
`leap_type = "NO_LEAP"`; a critical layer's conversion rate is multiplied
by its phase-transition multiplier. -/
def legacy_phase_transition (p : SSDParametersV5) (s : SSDStateV5) :
    LeapStageResult :=
  if p.enable_phase_transition then
    let critPhysical := decide (s.E_physical < p.Theta_physical)
    let critBase := decide (s.E_base < p.Theta_base)
    let critCore := decide (s.E_core < p.Theta_core)
    let critUpper := decide (s.E_upper < p.Theta_upper)
    { is_critical_physical := critPhysical
      is_critical_base := critBase
      is_critical_core := critCore
      is_critical_upper := critUpper
      gammas :=
        (if critPhysical then p.gamma_physical2d * p.phase_transition_multiplier_physical
         else p.gamma_physical2d,
         if critBase then p.gamma_base2d * p.phase_transition_multiplier_base
         else p.gamma_base2d,
         if critCore then p.gamma_core2d * p.phase_transition_multiplier_core
         else p.gamma_core2d,
         if critUpper then p.gamma_upper2d * p.phase_transition_multiplier_upper
         else p.gamma_upper2d) }
  else
    { gammas := (p.gamma_physical2d, p.gamma_base2d, p.gamma_core2d, p.gamma_upper2d) }

/-- Leap stage of `step()` (lines 466-489): integrated detection with
dynamic conversion rates, or the legacy static thresholds. -/
def leapStage (p : SSDParametersV5) (s : SSDStateV5)
    (np_physical np_base np_core np_upper : ℚ) : LeapStageResult :=
  if p.use_integrated_leap_detection then
    let powers := calculate_structural_powers s np_physical np_base np_core np_upper
    let leap := integrated_leap_detection p s powers
    { is_critical_physical := leap.is_critical_physical
      is_critical_base := leap.is_critical_base
      is_critical_core := leap.is_critical_core
      is_critical_upper := leap.is_critical_upper
      dominant_layer := leap.dominant_layer
      leap_type := leap.leap_type
      gammas := compute_dynamic_gamma p leap
      powers := some powers }
  else
    legacy_phase_transition p s

/-- PHYSICAL-layer energy production (`step()` lines 396-398):
`alpha_physical * ‖p_physical - j_physical‖` with `j = kappa * p`; for a
vector of norm `np` this is `alpha_physical * |np - kappa*np|`. -/
def E_physical_production (p : SSDParametersV5) (kappa np : ℚ) : ℚ :=
  p.alpha_physical * |np - kappa * np|

/-- BASE-layer energy production (`step()` lines 401-403). -/
def E_base_production (p : SSDParametersV5) (kappa np : ℚ) : ℚ :=
  p.alpha_base * |np - kappa * np|

/-- CORE-layer energy production (`step()` lines 406-408). -/
def E_core_production (p : SSDParametersV5) (kappa np : ℚ) : ℚ :=
  p.alpha_core * |np - kappa * np|

/-- UPPER-layer energy production (`step()` lines 411-413). -/
def E_upper_production (p : SSDParametersV5) (kappa np : ℚ) : ℚ :=
  p.alpha_upper * |np - kappa * np|

/-- Inertia after learning (`step()` lines 428-443), forgetting (lines
446-449) and the optional social-coupling increment (lines 452-458), as the
tuple (physical, base, core, upper); the floor clamp is applied afterwards
by `kappaStage`. -/
def kappaAfterSocial (p : SSDParametersV5) (s : SSDStateV5)
    (np_physical np_base np_core np_upper : ℚ)
    (others : Option (List SSDStateV5)) (rels : Option (List ℚ))
    (dt : ℚ) : ℚ × ℚ × ℚ × ℚ :=
  let kappa_physical2 :=
    (s.kappa_physical + p.eta_physical * np_physical * dt) * (1 - p.lambda_physical * dt)
  let kappa_base2 :=
    (s.kappa_base + p.eta_base * np_base * dt) * (1 - p.lambda_base * dt)
  let kappa_core2 :=
    (s.kappa_core + p.eta_core * np_core * dt) * (1 - p.lambda_core * dt)
  let kappa_upper2 :=
    (s.kappa_upper + p.eta_upper * np_upper * dt) * (1 - p.lambda_upper * dt)
  match others, rels with
  | some os, some rs =>
    let sck := compute_social_coupling p
      { s with kappa_physical := kappa_physical2, kappa_base := kappa_base2,
               kappa_core := kappa_core2, kappa_upper := kappa_upper2 } os rs
    (kappa_physical2 + sck.physical_kappa * dt,
     kappa_base2 + sck.base_kappa * dt,
     kappa_core2 + sck.core_kappa * dt,
     kappa_upper2 + sck.upper_kappa * dt)
  | _, _ => (kappa_physical2, kappa_base2, kappa_core2, kappa_upper2)

/-- The state after the inertia stage of `step()` (lines 428-464): learned,
forgotten, socially coupled and clamped to the per-layer floors; the
energies are unchanged. -/
def kappaStage (p : SSDParametersV5) (s : SSDStateV5)
    (np_physical np_base np_core np_upper : ℚ)
    (others : Option (List SSDStateV5)) (rels : Option (List ℚ))
    (dt : ℚ) : SSDStateV5 :=
  let k3 := kappaAfterSocial p s np_physical np_base np_core np_upper others rels dt
  { s with
    kappa_physical := max p.kappa_min_physical k3.1
    kappa_base := max p.kappa_min_base k3.2.1
    kappa_core := max p.kappa_min_core k3.2.2.1
    kappa_upper := max p.kappa_min_upper k3.2.2.2 }

/-- Interlayer transfers as used by `step()` (lines 505-515): computed when
enabled, otherwise the all-zero dictionary. -/
def stepTransfers (p : SSDParametersV5) (sK : SSDStateV5) : InterlayerTransfers :=
  if p.enable_interlayer_transfer then compute_interlayer_transfers p sK else {}

/-- Social coupling as used by `step()` for the energy terms (lines
523-532): computed when both optional arguments are supplied, otherwise the
all-zero dictionary. -/
def stepSocial (p : SSDParametersV5) (sK : SSDStateV5)
    (others : Option (List SSDStateV5)) (rels : Option (List ℚ)) :
    SocialCoupling :=
  match others, rels with
  | some os, some rs => compute_social_coupling p sK os rs
  | _, _ => {}

/-- Embedding of `SSDCoreEngineV5.step` (lines 355-640), with the engine statistics made
explicit. Pressure vectors and the optional direct force are given by their
Euclidean norms (see file header); `others`/`rels` model the optional
`other_states`/`relationships` arguments. Returns the updated state and the
updated engine statistics. -/
def step (p : SSDParametersV5) (stats : EngineStats) (s : SSDStateV5)
    (np_physical np_base np_core np_upper : ℚ) (F_direct : Option ℚ)
    (others : Option (List SSDStateV5)) (rels : Option (List ℚ))
    (dt : ℚ) : SSDStateV5 × EngineStats :=
  -- 2. layer energy production (lines 394-419; uses the pre-update inertia)
  let prod_physical := E_physical_production p s.kappa_physical np_physical
  let prod_base := E_base_production p s.kappa_base np_base
  let prod_core := E_core_production p s.kappa_core np_core
  let prod_upper := E_upper_production p s.kappa_upper np_upper
  let prod_direct := match F_direct with
    | some nF => p.alpha_d * |nF|
    | none => 0
  -- 4.-5.5 inertia stage (lines 428-464)
  let sK := kappaStage p s np_physical np_base np_core np_upper others rels dt
  -- 6. leap detection and dynamic conversion rates (lines 466-489)
  let lg := leapStage p sK np_physical np_base np_core np_upper
  let gamma_physical2d := lg.gammas.1
  let gamma_base2d := lg.gammas.2.1
  let gamma_core2d := lg.gammas.2.2.1
  let gamma_upper2d := lg.gammas.2.2.2
  -- 7. conversions (lines 492-515)
  let conversion_physical2d := gamma_physical2d * sK.E_physical
  let conversion_base2d := gamma_base2d * sK.E_base
  let conversion_core2d := gamma_core2d * sK.E_core
  let conversion_upper2d := gamma_upper2d * sK.E_upper
  let conversion_d2physical := p.gamma_d2physical * sK.E_direct
  let conversion_d2base := p.gamma_d2base * sK.E_direct
  let conversion_d2core := p.gamma_d2core * sK.E_direct
  let conversion_d2upper := p.gamma_d2upper * sK.E_direct
  let t := stepTransfers p sK
  -- 8. layer decay (lines 518-521)
  let decay_physical := p.beta_physical * sK.E_physical
  let decay_base := p.beta_base * sK.E_base
  let decay_core := p.beta_core * sK.E_core
  let decay_upper := p.beta_upper * sK.E_upper
  -- 8.5 social coupling for the energy terms (lines 523-542)
  let sc := stepSocial p sK others rels
  -- 9. energy derivatives (lines 544-583)
  let dE_physical := prod_physical - conversion_physical2d +
    conversion_d2physical - decay_physical + transferNet_physical t +
    sc.physical_energy
  let dE_base := prod_base - conversion_base2d + conversion_d2base -
    decay_base + transferNet_base t + sc.base_energy
  let dE_core := prod_core - conversion_core2d + conversion_d2core -
    decay_core + transferNet_core t + sc.core_energy
  let dE_upper := prod_upper - conversion_upper2d + conversion_d2upper -
    decay_upper + transferNet_upper t + sc.upper_energy
  let dE_direct := prod_direct +
    conversion_physical2d + conversion_base2d +
    conversion_core2d + conversion_upper2d -
    conversion_d2physical - conversion_d2base -
    conversion_d2core - conversion_d2upper
  -- 0./1./3. input recording and reaction decay, 10. energy update with
  -- clamping, 11. diagnostics (lines 378-392, 421-426, 586-623)
  ({ sK with
      E_physical := max 0 (sK.E_physical + dE_physical * dt)
      E_base := max 0 (sK.E_base + dE_base * dt)
      E_core := max 0 (sK.E_core + dE_core * dt)
      E_upper := max 0 (sK.E_upper + dE_upper * dt)
      E_direct := max 0 (sK.E_direct + dE_direct * dt)
      F_direct := F_direct.getD s.F_direct
      p_physical := np_physical
      p_base := np_base
      p_core := np_core
      p_upper := np_upper
      j_physical := s.kappa_physical * np_physical * (1 - p.rho_physical)
      j_base := s.kappa_base * np_base * (1 - p.rho_base)
      j_core := s.kappa_core * np_core * (1 - p.rho_core)
      j_upper := s.kappa_upper * np_upper * (1 - p.rho_upper)
      j_direct := 0 * (1 - p.rho_d)
      is_critical_physical := lg.is_critical_physical
      is_critical_base := lg.is_critical_base
      is_critical_core := lg.is_critical_core
      is_critical_upper := lg.is_critical_upper
      dominant_leap_layer := lg.dominant_layer
      leap_type := lg.leap_type
      sp_physical := match lg.powers with
        | some pw => pw.physical
        | none => s.sp_physical
      sp_base := match lg.powers with
        | some pw => pw.base
        | none => s.sp_base
      sp_core := match lg.powers with
        | some pw => pw.core
        | none => s.sp_core
      sp_upper := match lg.powers with
        | some pw => pw.upper
        | none => s.sp_upper
      E_physical_flow := dE_physical
      E_base_flow := dE_base
      E_core_flow := dE_core
      E_upper_flow := dE_upper
      E_direct_flow := dE_direct
      conversion_physical2d := conversion_physical2d
      conversion_base2d := conversion_base2d
      conversion_core2d := conversion_core2d
      conversion_upper2d := conversion_upper2d
      conversion_d2physical := conversion_d2physical
      conversion_d2base := conversion_d2base
      conversion_d2core := conversion_d2core
      conversion_d2upper := conversion_d2upper
      transfer_upper2base := t.upper2base
      transfer_upper2core := t.upper2core
      transfer_base2upper := t.base2upper
      transfer_base2core := t.base2core
      transfer_core2base := t.core2base
      transfer_core2upper := t.core2upper
      transfer_physical2base := t.physical2base
      transfer_physical2upper := t.physical2upper
      social_coupling_physical := sc.physical_energy
      social_coupling_base := sc.base_energy
      social_coupling_core := sc.core_energy
      social_coupling_upper := sc.upper_energy
      kappa_coupling_physical := sc.physical_kappa
      kappa_coupling_base := sc.base_kappa
      kappa_coupling_core := sc.core_kappa
      kappa_coupling_upper := sc.upper_kappa },
   -- 12. engine statistics update (lines 625-638)
   { total_conversion_physical2d :=
       stats.total_conversion_physical2d + conversion_physical2d * dt
     total_conversion_base2d :=
       stats.total_conversion_base2d + conversion_base2d * dt
     total_conversion_core2d :=
       stats.total_conversion_core2d + conversion_core2d * dt
     total_conversion_upper2d :=
       stats.total_conversion_upper2d + conversion_upper2d * dt
     total_conversion_d2physical :=
       stats.total_conversion_d2physical + conversion_d2physical * dt
     total_conversion_d2base :=
       stats.total_conversion_d2base + conversion_d2base * dt
     total_conversion_d2core :=
       stats.total_conversion_d2core + conversion_d2core * dt
     total_conversion_d2upper :=
       stats.total_conversion_d2upper + conversion_d2upper * dt
     total_decay_physical := stats.total_decay_physical + decay_physical * dt
     total_decay_base := stats.total_decay_base + decay_base * dt
     total_decay_core := stats.total_decay_core + decay_core * dt
     total_decay_upper := stats.total_decay_upper + decay_upper * dt
     time := stats.time + dt })

/-! Projection lemmas decomposing `step` (all definitional). -/

/-- Post-step PHYSICAL energy in terms of the recorded flow. -/
theorem step_E_physical_eq (p : SSDParametersV5) (stats : EngineStats)
    (s : SSDStateV5) (a b c d : ℚ) (F : Option ℚ)
    (o : Option (List SSDStateV5)) (r : Option (List ℚ)) (dt : ℚ) :
    (step p stats s a b c d F o r dt).1.E_physical
      = max 0 (s.E_physical + (step p stats s a b c d F o r dt).1.E_physical_flow * dt) := rfl

/-- Post-step BASE energy in terms of the recorded flow. -/
theorem step_E_base_eq (p : SSDParametersV5) (stats : EngineStats)
    (s : SSDStateV5) (a b c d : ℚ) (F : Option ℚ)
    (o : Option (List SSDStateV5)) (r : Option (List ℚ)) (dt : ℚ) :
    (step p stats s a b c d F o r dt).1.E_base
      = max 0 (s.E_base + (step p stats s a b c d F o r dt).1.E_base_flow * dt) := rfl

/-- Post-step CORE energy in terms of the recorded flow. -/
theorem step_E_core_eq (p : SSDParametersV5) (stats : EngineStats)
    (s : SSDStateV5) (a b c d : ℚ) (F : Option ℚ)
    (o : Option (List SSDStateV5)) (r : Option (List ℚ)) (dt : ℚ) :
    (step p stats s a b c d F o r dt).1.E_core
      = max 0 (s.E_core + (step p stats s a b c d F o r dt).1.E_core_flow * dt) := rfl

/-- Post-step UPPER energy in terms of the recorded flow. -/
theorem step_E_upper_eq (p : SSDParametersV5) (stats : EngineStats)
    (s : SSDStateV5) (a b c d : ℚ) (F : Option ℚ)
    (o : Option (List SSDStateV5)) (r : Option (List ℚ)) (dt : ℚ) :
    (step p stats s a b c d F o r dt).1.E_upper
      = max 0 (s.E_upper + (step p stats s a b c d F o r dt).1.E_upper_flow * dt) := rfl

/-- Post-step direct energy in terms of the recorded flow. -/
theorem step_E_direct_eq (p : SSDParametersV5) (stats : EngineStats)
    (s : SSDStateV5) (a b c d : ℚ) (F : Option ℚ)
    (o : Option (List SSDStateV5)) (r : Option (List ℚ)) (dt : ℚ) :
    (step p stats s a b c d F o r dt).1.E_direct
      = max 0 (s.E_direct + (step p stats s a b c d F o r dt).1.E_direct_flow * dt) := rfl

/-- Post-step inertias come from the inertia stage. -/
theorem step_kappa_eq (p : SSDParametersV5) (stats : EngineStats)
    (s : SSDStateV5) (a b c d : ℚ) (F : Option ℚ)
    (o : Option (List SSDStateV5)) (r : Option (List ℚ)) (dt : ℚ) :
    (step p stats s a b c d F o r dt).1.kappa_physical
        = (kappaStage p s a b c d o r dt).kappa_physical ∧
    (step p stats s a b c d F o r dt).1.kappa_base
        = (kappaStage p s a b c d o r dt).kappa_base ∧
    (step p stats s a b c d F o r dt).1.kappa_core
        = (kappaStage p s a b c d o r dt).kappa_core ∧
    (step p stats s a b c d F o r dt).1.kappa_upper
        = (kappaStage p s a b c d o r dt).kappa_upper :=
  ⟨rfl, rfl, rfl, rfl⟩

/-- Inertia-stage fields are the clamped post-social inertias. -/
theorem kappaStage_kappa_eq (p : SSDParametersV5) (s : SSDStateV5)
    (a b c d : ℚ) (o : Option (List SSDStateV5)) (r : Option (List ℚ))
    (dt : ℚ) :
    (kappaStage p s a b c d o r dt).kappa_physical
        = max p.kappa_min_physical (kappaAfterSocial p s a b c d o r dt).1 ∧
    (kappaStage p s a b c d o r dt).kappa_base
        = max p.kappa_min_base (kappaAfterSocial p s a b c d o r dt).2.1 ∧
    (kappaStage p s a b c d o r dt).kappa_core
        = max p.kappa_min_core (kappaAfterSocial p s a b c d o r dt).2.2.1 ∧
    (kappaStage p s a b c d o r dt).kappa_upper
        = max p.kappa_min_upper (kappaAfterSocial p s a b c d o r dt).2.2.2 :=
  ⟨rfl, rfl, rfl, rfl⟩

/-- Without the optional multi-agent arguments the inertia update is
learning followed by multiplicative forgetting. -/
theorem kappaAfterSocial_none (p : SSDParametersV5) (s : SSDStateV5)
    (a b c d : ℚ) (dt : ℚ) :
    kappaAfterSocial p s a b c d none none dt
      = ((s.kappa_physical + p.eta_physical * a * dt) * (1 - p.lambda_physical * dt),
         (s.kappa_base + p.eta_base * b * dt) * (1 - p.lambda_base * dt),
         (s.kappa_core + p.eta_core * c * dt) * (1 - p.lambda_core * dt),
         (s.kappa_upper + p.eta_upper * d * dt) * (1 - p.lambda_upper * dt)) := rfl

/-- Recorded layer-to-direct conversions: dynamic rate times the (unchanged)
layer energy. -/
theorem step_conversion_layer2d_eq (p : SSDParametersV5) (stats : EngineStats)
    (s : SSDStateV5) (a b c d : ℚ) (F : Option ℚ)
    (o : Option (List SSDStateV5)) (r : Option (List ℚ)) (dt : ℚ) :
    (step p stats s a b c d F o r dt).1.conversion_physical2d
        = (leapStage p (kappaStage p s a b c d o r dt) a b c d).gammas.1 * s.E_physical ∧
    (step p stats s a b c d F o r dt).1.conversion_base2d
        = (leapStage p (kappaStage p s a b c d o r dt) a b c d).gammas.2.1 * s.E_base ∧
    (step p stats s a b c d F o r dt).1.conversion_core2d
        = (leapStage p (kappaStage p s a b c d o r dt) a b c d).gammas.2.2.1 * s.E_core ∧
    (step p stats s a b c d F o r dt).1.conversion_upper2d
        = (leapStage p (kappaStage p s a b c d o r dt) a b c d).gammas.2.2.2 * s.E_upper :=
  ⟨rfl, rfl, rfl, rfl⟩

/-- Recorded direct-to-layer conversions. -/
theorem step_conversion_d2layer_eq (p : SSDParametersV5) (stats : EngineStats)
    (s : SSDStateV5) (a b c d : ℚ) (F : Option ℚ)
    (o : Option (List SSDStateV5)) (r : Option (List ℚ)) (dt : ℚ) :
    (step p stats s a b c d F o r dt).1.conversion_d2physical
        = p.gamma_d2physical * s.E_direct ∧
    (step p stats s a b c d F o r dt).1.conversion_d2base
        = p.gamma_d2base * s.E_direct ∧
    (step p stats s a b c d F o r dt).1.conversion_d2core
        = p.gamma_d2core * s.E_direct ∧
    (step p stats s a b c d F o r dt).1.conversion_d2upper
        = p.gamma_d2upper * s.E_direct :=
  ⟨rfl, rfl, rfl, rfl⟩

/-- Recorded leap diagnostics come from the leap stage. -/
theorem step_leap_eq (p : SSDParametersV5) (stats : EngineStats)
    (s : SSDStateV5) (a b c d : ℚ) (F : Option ℚ)
    (o : Option (List SSDStateV5)) (r : Option (List ℚ)) (dt : ℚ) :
    (step p stats s a b c d F o r dt).1.dominant_leap_layer
        = (leapStage p (kappaStage p s a b c d o r dt) a b c d).dominant_layer ∧
    (step p stats s a b c d F o r dt).1.leap_type
        = (leapStage p (kappaStage p s a b c d o r dt) a b c d).leap_type ∧
    (step p stats s a b c d F o r dt).1.is_critical_base
        = (leapStage p (kappaStage p s a b c d o r dt) a b c d).is_critical_base :=
  ⟨rfl, rfl, rfl⟩

/-- The recorded BASE-layer flow decomposed into production, conversion,
decay, interlayer transfer, and social coupling. -/
theorem step_E_base_flow_eq (p : SSDParametersV5) (stats : EngineStats)
    (s : SSDStateV5) (a b c d : ℚ) (F : Option ℚ)
    (o : Option (List SSDStateV5)) (r : Option (List ℚ)) (dt : ℚ) :
    (step p stats s a b c d F o r dt).1.E_base_flow
      = E_base_production p s.kappa_base b
        - (step p stats s a b c d F o r dt).1.conversion_base2d
        + (step p stats s a b c d F o r dt).1.conversion_d2base
        - p.beta_base * s.E_base
        + transferNet_base (stepTransfers p (kappaStage p s a b c d o r dt))
        + (stepSocial p (kappaStage p s a b c d o r dt) o r).base_energy := rfl

/-- The recorded direct-action flow when no direct force is supplied:
production is zero and only the eight conversions remain. -/
theorem step_E_direct_flow_none (p : SSDParametersV5) (stats : EngineStats)
    (s : SSDStateV5) (a b c d : ℚ)
    (o : Option (List SSDStateV5)) (r : Option (List ℚ)) (dt : ℚ) :
    (step p stats s a b c d none o r dt).1.E_direct_flow
      = 0 + (step p stats s a b c d none o r dt).1.conversion_physical2d
        + (step p stats s a b c d none o r dt).1.conversion_base2d
        + (step p stats s a b c d none o r dt).1.conversion_core2d
        + (step p stats s a b c d none o r dt).1.conversion_upper2d
        - (step p stats s a b c d none o r dt).1.conversion_d2physical
        - (step p stats s a b c d none o r dt).1.conversion_d2base
        - (step p stats s a b c d none o r dt).1.conversion_d2core
        - (step p stats s a b c d none o r dt).1.conversion_d2upper := rfl

/-- Engine-statistics update shape: the clock advances by `dt`. -/
theorem step_stats_time_eq (p : SSDParametersV5) (stats : EngineStats)
    (s : SSDStateV5) (a b c d : ℚ) (F : Option ℚ)
    (o : Option (List SSDStateV5)) (r : Option (List ℚ)) (dt : ℚ) :
    (step p stats s a b c d F o r dt).2.time = stats.time + dt := rfl

/-- C1: for every initial state, parameter set, pressure vectors,
other-agent list, and `dt > 0`, after a call to `step()` every layer energy
(`E_physical`, `E_base`, `E_core`, `E_upper`, `E_direct`) is nonnegative and
every layer inertia is at least its configured floor `kappa_min_layer`
(both enforced by the clamps in `step()`). -/
theorem step_energy_nonneg_kappa_floor (p : SSDParametersV5)
    (stats : EngineStats) (s : SSDStateV5) (a b c d : ℚ) (F : Option ℚ)
    (o : Option (List SSDStateV5)) (r : Option (List ℚ)) (dt : ℚ)
    (hdt : 0 < dt) :
    0 ≤ (step p stats s a b c d F o r dt).1.E_physical ∧
    0 ≤ (step p stats s a b c d F o r dt).1.E_base ∧
    0 ≤ (step p stats s a b c d F o r dt).1.E_core ∧
    0 ≤ (step p stats s a b c d F o r dt).1.E_upper ∧
    0 ≤ (step p stats s a b c d F o r dt).1.E_direct ∧
    p.kappa_min_physical ≤ (step p stats s a b c d F o r dt).1.kappa_physical ∧
    p.kappa_min_base ≤ (step p stats s a b c d F o r dt).1.kappa_base ∧
    p.kappa_min_core ≤ (step p stats s a b c d F o r dt).1.kappa_core ∧
    p.kappa_min_upper ≤ (step p stats s a b c d F o r dt).1.kappa_upper :=
  ⟨le_max_left _ _, le_max_left _ _, le_max_left _ _, le_max_left _ _,
   le_max_left _ _, le_max_left _ _, le_max_left _ _, le_max_left _ _,
   le_max_left _ _⟩

/-- Witness for C1 at a concrete input. -/
theorem step_energy_nonneg_kappa_floor_witness :
    (0 : ℚ) < 1 ∧
    (0 ≤ (step {} {} {} 3 5 7 9 (some 2) none none 1).1.E_physical ∧
     0 ≤ (step {} {} {} 3 5 7 9 (some 2) none none 1).1.E_base ∧
     0 ≤ (step {} {} {} 3 5 7 9 (some 2) none none 1).1.E_core ∧
     0 ≤ (step {} {} {} 3 5 7 9 (some 2) none none 1).1.E_upper ∧
     0 ≤ (step {} {} {} 3 5 7 9 (some 2) none none 1).1.E_direct ∧
     ({} : SSDParametersV5).kappa_min_physical
        ≤ (step {} {} {} 3 5 7 9 (some 2) none none 1).1.kappa_physical ∧
     ({} : SSDParametersV5).kappa_min_base
        ≤ (step {} {} {} 3 5 7 9 (some 2) none none 1).1.kappa_base ∧
     ({} : SSDParametersV5).kappa_min_core
        ≤ (step {} {} {} 3 5 7 9 (some 2) none none 1).1.kappa_core ∧
     ({} : SSDParametersV5).kappa_min_upper
        ≤ (step {} {} {} 3 5 7 9 (some 2) none none 1).1.kappa_upper) :=
  ⟨by norm_num,
   step_energy_nonneg_kappa_floor {} {} {} 3 5 7 9 (some 2) none none 1
     (by norm_num)⟩

/-- Production formula as the spec states it: alpha times
`max(0, pressure magnitude - reaction magnitude)`. Written from the spec's
words, to be compared with the source's `E_*_production`. -/
def spec_production (alpha pnorm jnorm : ℚ) : ℚ :=
  alpha * max 0 (pnorm - jnorm)

/-- State with BASE inertia 2, where the reaction magnitude exceeds the
pressure magnitude. -/
def overAbsorbState : SSDStateV5 := { kappa_base := 2 }

/-- Case analysis relating the code's production `alpha * |np - kappa*np|`
to the spec's `alpha * max 0 (np - |kappa*np|)`. -/
theorem production_formula_cases (alpha kappa np : ℚ)
    (hnp : 0 ≤ np) (hk : 0 ≤ kappa) :
    (kappa ≤ 1 → alpha * |np - kappa * np| = spec_production alpha np |kappa * np|) ∧
    (1 < kappa → 0 < np →
      alpha * |np - kappa * np| = alpha * (kappa - 1) * np ∧
      spec_production alpha np |kappa * np| = 0) := by
  have hjn : |kappa * np| = kappa * np := abs_of_nonneg (mul_nonneg hk hnp)
  constructor
  · intro h1
    have hpos : 0 ≤ np - kappa * np := by nlinarith
    rw [spec_production, hjn, abs_of_nonneg hpos, max_eq_right hpos]
  · intro h1 h2
    have hneg : np - kappa * np < 0 := by nlinarith
    constructor
    · rw [abs_of_neg hneg]; ring
    · rw [spec_production, hjn, max_eq_left (by nlinarith), mul_zero]

/-- Counterexample to C2: with BASE inertia 2 and a unit pressure vector,
the reaction magnitude (2) exceeds the pressure magnitude (1), so the
claimed production `alpha * max(0, |p| - |j|)` is 0, yet the code produces
`alpha * ‖p - j‖ = 1`, and a full `step()` at this state (all energies
zero, so every other BASE term vanishes) records a BASE flow of `1`,
not `0`. -/
theorem base_production_spec_counterexample :
    E_base_production {} (2 : ℚ) 1 = 1 ∧
    spec_production ({} : SSDParametersV5).alpha_base 1 |(2 : ℚ) * 1| = 0 ∧
    (step {} {} overAbsorbState 0 1 0 0 none none none 1).1.E_base_flow = 1 := by
  refine ⟨by norm_num [E_base_production], by norm_num [spec_production], ?_⟩
  rw [step_E_base_flow_eq,
    (step_conversion_layer2d_eq {} {} overAbsorbState 0 1 0 0 none none none 1).2.1,
    (step_conversion_d2layer_eq {} {} overAbsorbState 0 1 0 0 none none none 1).2.1]
  norm_num [E_base_production, overAbsorbState, stepTransfers,
    compute_interlayer_transfers, transferNet_base, stepSocial, kappaStage]

/-- C2 amended: the per-layer production added by `step()` is
`alpha_layer * ‖pressure - reaction‖`; this agrees with the spec's
`alpha_layer * max(0, |pressure| - |reaction|)` exactly when the layer's
inertia is at most 1, while for inertia above 1 and nonzero pressure the
code produces `alpha_layer * (inertia - 1) * |pressure| `, which is
positive for positive `alpha_layer`, where the spec formula gives zero. -/
theorem production_amended (p : SSDParametersV5) (kappa np : ℚ)
    (hnp : 0 ≤ np) (hk : 0 ≤ kappa) :
    (kappa ≤ 1 →
      E_physical_production p kappa np = spec_production p.alpha_physical np |kappa * np| ∧
      E_base_production p kappa np = spec_production p.alpha_base np |kappa * np| ∧
      E_core_production p kappa np = spec_production p.alpha_core np |kappa * np| ∧
      E_upper_production p kappa np = spec_production p.alpha_upper np |kappa * np|) ∧
    (1 < kappa → 0 < np →
      E_base_production p kappa np = p.alpha_base * (kappa - 1) * np ∧
      spec_production p.alpha_base np |kappa * np| = 0) := by
  constructor
  · intro h1
    exact ⟨(production_formula_cases p.alpha_physical kappa np hnp hk).1 h1,
      (production_formula_cases p.alpha_base kappa np hnp hk).1 h1,
      (production_formula_cases p.alpha_core kappa np hnp hk).1 h1,
      (production_formula_cases p.alpha_upper kappa np hnp hk).1 h1⟩
  · intro h1 h2
    exact (production_formula_cases p.alpha_base kappa np hnp hk).2 h1 h2

/-- Witness for the amended C2 at inertia 1/2 and pressure magnitude 2. -/
theorem production_amended_witness :
    (0 : ℚ) ≤ 2 ∧ (0 : ℚ) ≤ 1/2 ∧
    (((1:ℚ)/2 ≤ 1 →
      E_physical_production {} (1/2) 2
        = spec_production ({} : SSDParametersV5).alpha_physical 2 |(1/2 : ℚ) * 2| ∧
      E_base_production {} (1/2) 2
        = spec_production ({} : SSDParametersV5).alpha_base 2 |(1/2 : ℚ) * 2| ∧
      E_core_production {} (1/2) 2
        = spec_production ({} : SSDParametersV5).alpha_core 2 |(1/2 : ℚ) * 2| ∧
      E_upper_production {} (1/2) 2
        = spec_production ({} : SSDParametersV5).alpha_upper 2 |(1/2 : ℚ) * 2|) ∧
     (1 < (1:ℚ)/2 → 0 < (2:ℚ) →
      E_base_production {} (1/2) 2 = ({} : SSDParametersV5).alpha_base * ((1:ℚ)/2 - 1) * 2 ∧
      spec_production ({} : SSDParametersV5).alpha_base 2 |(1/2 : ℚ) * 2| = 0)) :=
  ⟨by norm_num, by norm_num,
   production_amended {} (1/2) 2 (by norm_num) (by norm_num)⟩

/-- Inertia update law as the spec states it:
`delta = eta*(|p|*|j| - rho*|j|^2) - lambda*(kappa - kappa_min)`, integrated
by `kappa += delta*dt` and clamped to the floor. Written from the spec's
words, to be compared with the source's update. -/
def spec_kappa_update (eta rho lam kappa_min kappa np dt : ℚ) : ℚ :=
  let j := kappa * np
  let delta := eta * (|np| * |j| - rho * |j| ^ 2) - lam * (kappa - kappa_min)
  max kappa_min (kappa + delta * dt)

/-- Counterexample to C3: at BASE inertia 2, unit pressure, default
parameters and `dt = 1`, the code updates the BASE inertia to
`max(0.8, (2 + 0.8)*(1 - 0.05)) = 2.66`, while the formula claimed by the
spec gives `max(0.8, 2 + (0.8*(1*2 - 0.1*4) - 0.05*(2 - 0.8))) = 3.22`. -/
theorem kappa_update_spec_counterexample :
    (step {} {} overAbsorbState 0 1 0 0 none none none 1).1.kappa_base = 133/50 ∧
    spec_kappa_update (8/10) (1/10) (5/100) (8/10) 2 1 1 = 161/50 ∧
    (133/50 : ℚ) ≠ 161/50 := by
  refine ⟨?_, by norm_num [spec_kappa_update, max_def], by norm_num⟩
  rw [(step_kappa_eq {} {} overAbsorbState 0 1 0 0 none none none 1).2.1,
    (kappaStage_kappa_eq {} overAbsorbState 0 1 0 0 none none 1).2.1,
    kappaAfterSocial_none]
  norm_num [overAbsorbState, max_def]

/-- C3 amended: for a single agent the inertia update of `step()` is
additive learning `kappa += eta_layer * |pressure| * dt` followed by
multiplicative forgetting `kappa *= (1 - lambda_layer*dt)` and the floor
clamp; with zero pressure the inertia decays geometrically toward zero and
is held at the floor `kappa_min_layer` by the clamp (so the resting point
is the floor, but the law is not the spec's
`eta*(|p|*|j| - rho*|j|^2) - lambda*(kappa - kappa_min)`). -/
theorem kappa_update_closed_form (p : SSDParametersV5) (stats : EngineStats)
    (s : SSDStateV5) (a b c d : ℚ) (F : Option ℚ) (dt : ℚ) :
    ((step p stats s a b c d F none none dt).1.kappa_physical
        = max p.kappa_min_physical
            ((s.kappa_physical + p.eta_physical * a * dt) * (1 - p.lambda_physical * dt)) ∧
     (step p stats s a b c d F none none dt).1.kappa_base
        = max p.kappa_min_base
            ((s.kappa_base + p.eta_base * b * dt) * (1 - p.lambda_base * dt)) ∧
     (step p stats s a b c d F none none dt).1.kappa_core
        = max p.kappa_min_core
            ((s.kappa_core + p.eta_core * c * dt) * (1 - p.lambda_core * dt)) ∧
     (step p stats s a b c d F none none dt).1.kappa_upper
        = max p.kappa_min_upper
            ((s.kappa_upper + p.eta_upper * d * dt) * (1 - p.lambda_upper * dt))) ∧
    (step p stats s a 0 c d F none none dt).1.kappa_base
        = max p.kappa_min_base (s.kappa_base * (1 - p.lambda_base * dt)) := by
  refine ⟨⟨rfl, rfl, rfl, rfl⟩, ?_⟩
  rw [(step_kappa_eq p stats s a 0 c d F none none dt).2.1,
    (kappaStage_kappa_eq p s a 0 c d none none dt).2.1,
    kappaAfterSocial_none]
  have h : (s.kappa_base + p.eta_base * 0 * dt) * (1 - p.lambda_base * dt)
      = s.kappa_base * (1 - p.lambda_base * dt) := by ring
  rw [h]

/-- C5: every declared directed-pair transfer moves
`gamma_pair * E_source * transfer_strength`, is added to the destination's
energy delta and subtracted from the source's delta in the same step, and
hence the per-layer net interlayer-transfer contributions used by `step()`
sum to exactly zero over the four layers, independently of production,
decay, and conversion-to-direct. -/
theorem interlayer_transfer_conservation (p : SSDParametersV5) (s : SSDStateV5) :
    ((compute_interlayer_transfers p s).upper2base
        = p.gamma_upper2base * s.E_upper * p.interlayer_transfer_strength ∧
     (compute_interlayer_transfers p s).upper2core
        = p.gamma_upper2core * s.E_upper * p.interlayer_transfer_strength ∧
     (compute_interlayer_transfers p s).base2upper
        = p.gamma_base2upper * s.E_base * p.interlayer_transfer_strength ∧
     (compute_interlayer_transfers p s).base2core
        = p.gamma_base2core * s.E_base * p.interlayer_transfer_strength ∧
     (compute_interlayer_transfers p s).core2base
        = p.gamma_core2base * s.E_core * p.interlayer_transfer_strength ∧
     (compute_interlayer_transfers p s).core2upper
        = p.gamma_core2upper * s.E_core * p.interlayer_transfer_strength ∧
     (compute_interlayer_transfers p s).physical2base
        = p.gamma_physical2base * s.E_physical * p.interlayer_transfer_strength ∧
     (compute_interlayer_transfers p s).physical2upper
        = p.gamma_physical2upper * s.E_physical * p.interlayer_transfer_strength) ∧
    (p.enable_interlayer_transfer = true →
      stepTransfers p s = compute_interlayer_transfers p s) ∧
    (∀ t : InterlayerTransfers,
      transferNet_physical t + transferNet_base t +
        transferNet_core t + transferNet_upper t = 0) := by
  refine ⟨⟨rfl, rfl, rfl, rfl, rfl, rfl, rfl, rfl⟩, ?_, ?_⟩
  · intro h
    simp [stepTransfers, h]
  · intro t
    simp only [transferNet_physical, transferNet_base, transferNet_core,
      transferNet_upper]
    ring

/-- Witness for C5 with interlayer transfer enabled (the default). -/
theorem interlayer_transfer_conservation_witness :
    ({} : SSDParametersV5).enable_interlayer_transfer = true ∧
    stepTransfers {} {} = compute_interlayer_transfers {} {} ∧
    transferNet_physical (compute_interlayer_transfers {} {}) +
      transferNet_base (compute_interlayer_transfers {} {}) +
      transferNet_core (compute_interlayer_transfers {} {}) +
      transferNet_upper (compute_interlayer_transfers {} {}) = 0 :=
  ⟨rfl, (interlayer_transfer_conservation {} {}).2.1 rfl,
   (interlayer_transfer_conservation {} {}).2.2 (compute_interlayer_transfers {} {})⟩

/-- C9: a pairing whose relationship scalar lies in the neutral band
(between minus and plus the cooperation threshold, inclusive) contributes
exactly zero to every layer's energy and inertia coupling, and an empty
other-agent list yields the all-zero coupling. -/
theorem neutral_social_coupling_zero (p : SSDParametersV5)
    (s other : SSDStateV5) (acc : SocialCoupling) (relation : ℚ)
    (rs : List ℚ)
    (hlo : -p.cooperation_threshold ≤ relation)
    (hhi : relation ≤ p.cooperation_threshold) :
    couplingOfPair p s other relation = {} ∧
    addCoupling acc (couplingOfPair p s other relation) = acc ∧
    compute_social_coupling p s [] rs = {} := by
  have h1 : ¬ p.cooperation_threshold < relation := not_lt.mpr hhi
  have h2 : ¬ relation < -p.cooperation_threshold := not_lt.mpr hlo
  have hz : couplingOfPair p s other relation = {} := by
    simp only [couplingOfPair]
    rw [if_neg h1, if_neg h2]
  refine ⟨hz, ?_, ?_⟩
  · rw [hz]
    obtain ⟨⟩ := acc
    simp [addCoupling]
  · simp [compute_social_coupling]

/-- Witness for C9 at relationship 0 (neutral). -/
theorem neutral_social_coupling_zero_witness :
    -({} : SSDParametersV5).cooperation_threshold ≤ (0 : ℚ) ∧
    (0 : ℚ) ≤ ({} : SSDParametersV5).cooperation_threshold ∧
    (couplingOfPair {} {} { E_base := 5 } 0 = {} ∧
     addCoupling { base_energy := 3 } (couplingOfPair {} {} { E_base := 5 } 0)
        = { base_energy := 3 } ∧
     compute_social_coupling {} {} [] [7] = {}) :=
  ⟨by norm_num, by norm_num,
   neutral_social_coupling_zero {} {} { E_base := 5 } { base_energy := 3 } 0 [7]
     (by norm_num) (by norm_num)⟩

/-- Counterexample to C8: a call to `step()` does mutate engine-owned state
other than a random generator — the engine's accumulated statistics change
(the clock advances by `dt`); the v5 engine consults no random generator at
all. -/
theorem step_engine_stats_mutation :
    (step {} {} {} 0 0 0 0 none none none 1).2.time ≠ ({} : EngineStats).time := by
  rw [step_stats_time_eq]
  norm_num

/-- C8 amended: `step()` is a deterministic function of (state, parameters,
pressures, other-agent snapshots, dt); its returned state does not depend on
the engine's accumulated statistics, and its only engine-owned side effect
is updating those statistics (conversion/decay totals and the clock) — no
random generator is involved. -/
theorem step_stats_frame_amended (p : SSDParametersV5)
    (stats1 stats2 : EngineStats) (s : SSDStateV5) (a b c d : ℚ)
    (F : Option ℚ) (o : Option (List SSDStateV5)) (r : Option (List ℚ))
    (dt : ℚ) :
    (step p stats1 s a b c d F o r dt).1 = (step p stats2 s a b c d F o r dt).1 ∧
    (step p stats1 s a b c d F o r dt).2.time = stats1.time + dt ∧
    (step p stats1 s a b c d F o r dt).2.total_conversion_base2d
      = stats1.total_conversion_base2d
        + (step p stats1 s a b c d F o r dt).1.conversion_base2d * dt ∧
    (step p stats1 s a b c d F o r dt).2.total_decay_base
      = stats1.total_decay_base + p.beta_base * s.E_base * dt :=
  ⟨rfl, rfl, rfl, rfl⟩

/-- Conversion rates of the leap stage all vanish when the eight base
conversion coefficients are zero, in both leap-detection modes and under
any phase-transition amplification. -/
theorem leapStage_gammas_zero (p : SSDParametersV5) (s : SSDStateV5)
    (a b c d : ℚ) (h1 : p.gamma_physical2d = 0) (h2 : p.gamma_base2d = 0)
    (h3 : p.gamma_core2d = 0) (h4 : p.gamma_upper2d = 0) :
    (leapStage p s a b c d).gammas = (0, 0, 0, 0) := by
  simp only [leapStage, compute_dynamic_gamma, legacy_phase_transition,
    h1, h2, h3, h4, zero_mul, ite_self]
  split_ifs <;> rfl

/-- C10: with no direct force, the pre-clamp change to `E_direct` consists
exactly of the four layer-to-direct conversions minus the four
direct-to-layer conversions (no decay, interlayer-transfer, or
social-coupling term); so when the eight conversion coefficients are zero
and `E_direct` is nonnegative, `step()` leaves `E_direct` unchanged. -/
theorem direct_energy_frame (p : SSDParametersV5) (stats : EngineStats)
    (s : SSDStateV5) (a b c d : ℚ) (o : Option (List SSDStateV5))
    (r : Option (List ℚ)) (dt : ℚ)
    (h1 : p.gamma_physical2d = 0) (h2 : p.gamma_base2d = 0)
    (h3 : p.gamma_core2d = 0) (h4 : p.gamma_upper2d = 0)
    (h5 : p.gamma_d2physical = 0) (h6 : p.gamma_d2base = 0)
    (h7 : p.gamma_d2core = 0) (h8 : p.gamma_d2upper = 0)
    (hE : 0 ≤ s.E_direct) :
    (step p stats s a b c d none o r dt).1.E_direct_flow = 0 ∧
    (step p stats s a b c d none o r dt).1.E_direct = s.E_direct := by
  obtain ⟨c1, c2, c3, c4⟩ :=
    step_conversion_layer2d_eq p stats s a b c d none o r dt
  obtain ⟨e1, e2, e3, e4⟩ :=
    step_conversion_d2layer_eq p stats s a b c d none o r dt
  have hflow : (step p stats s a b c d none o r dt).1.E_direct_flow = 0 := by
    rw [step_E_direct_flow_none, c1, c2, c3, c4, e1, e2, e3, e4,
      leapStage_gammas_zero p (kappaStage p s a b c d o r dt) a b c d h1 h2 h3 h4]
    norm_num [h5, h6, h7, h8]
  refine ⟨hflow, ?_⟩
  rw [step_E_direct_eq, hflow]
  simp [hE, max_eq_right]

/-- Parameter set with all eight direct-conversion coefficients zero. -/
def zeroConversionParams : SSDParametersV5 :=
  { gamma_physical2d := 0, gamma_base2d := 0, gamma_core2d := 0,
    gamma_upper2d := 0, gamma_d2physical := 0, gamma_d2base := 0,
    gamma_d2core := 0, gamma_d2upper := 0 }

/-- Witness for C10: with the eight conversion coefficients zero and no
direct force, `E_direct = 7` survives a step unchanged. -/
theorem direct_energy_frame_witness :
    (0 : ℚ) ≤ ({ E_direct := 7 } : SSDStateV5).E_direct ∧
    ((step zeroConversionParams {} { E_direct := 7 } 1 2 3 4 none none none 1).1.E_direct_flow = 0 ∧
     (step zeroConversionParams {} { E_direct := 7 } 1 2 3 4 none none none 1).1.E_direct
        = ({ E_direct := 7 } : SSDStateV5).E_direct) :=
  ⟨by norm_num,
   direct_energy_frame zeroConversionParams {} { E_direct := 7 } 1 2 3 4
     none none 1 rfl rfl rfl rfl rfl rfl rfl rfl (by norm_num)⟩

/-- Engine parameters for the worked scenario: static (legacy) leap
detection, all other parameters at their defaults
(`Theta_base = 150`, `gamma_base2d = 0.08`, multiplier 15). -/
def legacyScenarioParams : SSDParametersV5 :=
  { use_integrated_leap_detection := false }

/-- Initial state for the worked scenario: `E_base = 120`, everything else
at its defaults. -/
def legacyScenarioState : SSDStateV5 := { E_base := 120 }

/-- Counterexample to C4: in the worked scenario the conversion is indeed
`0.08 * 15 * 120 = 144`, but the dominant layer reported by a static-mode
step is `"NONE"`, not Base — `_legacy_phase_transition` always writes
`dominant_leap_layer = "NONE"`. -/
theorem legacy_scenario_dominant_counterexample :
    (step legacyScenarioParams {} legacyScenarioState 0 0 0 0 none none none 1).1.conversion_base2d = 144 ∧
    (step legacyScenarioParams {} legacyScenarioState 0 0 0 0 none none none 1).1.dominant_leap_layer = "NONE" ∧
    (step legacyScenarioParams {} legacyScenarioState 0 0 0 0 none none none 1).1.dominant_leap_layer ≠ "BASE" := by
  have hdom : (step legacyScenarioParams {} legacyScenarioState 0 0 0 0 none none none 1).1.dominant_leap_layer = "NONE" := by
    rw [(step_leap_eq legacyScenarioParams {} legacyScenarioState 0 0 0 0 none none none 1).1]
    simp [leapStage, legacy_phase_transition, legacyScenarioParams]
  refine ⟨?_, hdom, ?_⟩
  · rw [(step_conversion_layer2d_eq legacyScenarioParams {} legacyScenarioState 0 0 0 0 none none none 1).2.1]
    norm_num [leapStage, legacy_phase_transition, kappaStage,
      legacyScenarioParams, legacyScenarioState]
  · rw [hdom]
    simp

/-- C4 amended: in the static scenario (`E_base = 120 < Theta_base = 150`,
zero pressure, `dt = 1`) the step reports
`conversion_base2d = 0.08 * 15 * 120 = 144` and flags BASE as critical, and
`E_base` decreases by the conversion (together with decay 0.6 and net
interlayer outflow 3.6, giving flow `-148.2`, clamped to 0); however the
reported dominant layer stays `"NONE"` with `leap_type = "NO_LEAP"`,
because static mode never assigns a dominant layer. -/
theorem legacy_scenario_amended :
    (step legacyScenarioParams {} legacyScenarioState 0 0 0 0 none none none 1).1.conversion_base2d = 144 ∧
    (step legacyScenarioParams {} legacyScenarioState 0 0 0 0 none none none 1).1.is_critical_base = true ∧
    (step legacyScenarioParams {} legacyScenarioState 0 0 0 0 none none none 1).1.dominant_leap_layer = "NONE" ∧
    (step legacyScenarioParams {} legacyScenarioState 0 0 0 0 none none none 1).1.leap_type = "NO_LEAP" ∧
    (step legacyScenarioParams {} legacyScenarioState 0 0 0 0 none none none 1).1.E_base_flow = -741/5 ∧
    (step legacyScenarioParams {} legacyScenarioState 0 0 0 0 none none none 1).1.E_base = 0 := by
  have hconv : (step legacyScenarioParams {} legacyScenarioState 0 0 0 0 none none none 1).1.conversion_base2d = 144 := by
    rw [(step_conversion_layer2d_eq legacyScenarioParams {} legacyScenarioState 0 0 0 0 none none none 1).2.1]
    norm_num [leapStage, legacy_phase_transition, kappaStage,
      legacyScenarioParams, legacyScenarioState]
  have hflow : (step legacyScenarioParams {} legacyScenarioState 0 0 0 0 none none none 1).1.E_base_flow = -741/5 := by
    rw [step_E_base_flow_eq, hconv,
      (step_conversion_d2layer_eq legacyScenarioParams {} legacyScenarioState 0 0 0 0 none none none 1).2.1]
    norm_num [E_base_production, legacyScenarioParams, legacyScenarioState,
      stepTransfers, compute_interlayer_transfers, transferNet_base,
      stepSocial, kappaStage]
  refine ⟨hconv, ?_, ?_, ?_, hflow, ?_⟩
  · rw [(step_leap_eq legacyScenarioParams {} legacyScenarioState 0 0 0 0 none none none 1).2.2]
    norm_num [leapStage, legacy_phase_transition, kappaStage,
      legacyScenarioParams, legacyScenarioState]
  · rw [(step_leap_eq legacyScenarioParams {} legacyScenarioState 0 0 0 0 none none none 1).1]
    simp [leapStage, legacy_phase_transition, legacyScenarioParams]
  · rw [(step_leap_eq legacyScenarioParams {} legacyScenarioState 0 0 0 0 none none none 1).2.1]
    simp [leapStage, legacy_phase_transition, legacyScenarioParams]
  · rw [step_E_base_eq, hflow]
    norm_num [legacyScenarioState, max_def]

/-- Python's `max(items, key=...)` over a nonempty list returns the first
element attaining the maximal value: the list splits as
`l1 ++ result :: l2` with every value at most the result's and every value
before it strictly below it. -/
theorem pickFirstMax_spec (xs : List (String × ℚ)) : ∀ x : String × ℚ,
    ∃ l₁ l₂, x :: xs = l₁ ++ pickFirstMax x xs :: l₂ ∧
      (∀ y ∈ x :: xs, y.2 ≤ (pickFirstMax x xs).2) ∧
      (∀ y ∈ l₁, y.2 < (pickFirstMax x xs).2) := by
  induction xs with
  | nil =>
    intro x
    refine ⟨[], [], by simp [pickFirstMax], ?_, by simp⟩
    intro z hz
    simp only [List.mem_singleton] at hz
    simp [pickFirstMax, hz]
  | cons y ys ih =>
    intro x
    by_cases h : x.2 < y.2
    · obtain ⟨l₁, l₂, heq, hle, hlt⟩ := ih y
      have hres : pickFirstMax x (y :: ys) = pickFirstMax y ys := by
        simp only [pickFirstMax]
        rw [if_pos h]
      rw [hres]
      have hxle : x.2 < (pickFirstMax y ys).2 :=
        lt_of_lt_of_le h (hle y (List.mem_cons_self y ys))
      refine ⟨x :: l₁, l₂, ?_, ?_, ?_⟩
      · rw [List.cons_append, ← heq]
      · intro z hz
        rcases List.mem_cons.mp hz with hz | hz
        · rw [hz]; exact le_of_lt hxle
        · exact hle z hz
      · intro z hz
        rcases List.mem_cons.mp hz with hz | hz
        · rw [hz]; exact hxle
        · exact hlt z hz
    · have hyx : y.2 ≤ x.2 := not_lt.mp h
      obtain ⟨l₁, l₂, heq, hle, hlt⟩ := ih x
      have hres : pickFirstMax x (y :: ys) = pickFirstMax x ys := by
        simp only [pickFirstMax]
        rw [if_neg h]
      rw [hres]
      cases l₁ with
      | nil =>
        simp only [List.nil_append] at heq
        refine ⟨[], y :: l₂, ?_, ?_, by simp⟩
        · rw [List.nil_append]
          injection heq with h1 h2
          rw [← h1, h2]
        · intro z hz
          rcases List.mem_cons.mp hz with hz | hz
          · rw [hz]; exact hle x (List.mem_cons_self x ys)
          rcases List.mem_cons.mp hz with hz2 | hz2
          · injection heq with h1 _
            rw [hz2, ← h1]
            exact hyx
          · exact hle z (List.mem_cons_of_mem x hz2)
      | cons a l₁' =>
        simp only [List.cons_append] at heq
        injection heq with h1 h2
        have hxlt : x.2 < (pickFirstMax x ys).2 := by
          have ha := hlt a (List.mem_cons_self a l₁')
          rw [← h1] at ha
          exact ha
        refine ⟨x :: y :: l₁', l₂, ?_, ?_, ?_⟩
        · simp only [List.cons_append]
          rw [← h2]
        · intro z hz
          rcases List.mem_cons.mp hz with hz | hz
          · rw [hz]; exact hle x (List.mem_cons_self x ys)
          rcases List.mem_cons.mp hz with hz2 | hz2
          · rw [hz2]; exact le_trans hyx (hle x (List.mem_cons_self x ys))
          · exact hle z (List.mem_cons_of_mem x hz2)
        · intro z hz
          rcases List.mem_cons.mp hz with hz | hz
          · rw [hz]; exact hxlt
          rcases List.mem_cons.mp hz with hz2 | hz2
          · rw [hz2]; exact lt_of_le_of_lt hyx hxlt
          · exact hlt z (List.mem_cons_of_mem a hz2)

/-- C6: in integrated leap-detection mode, if no layer is critical (its
energy below its dynamic threshold, i.e. the critical list built in the
fixed enumeration order PHYSICAL, BASE, CORE, UPPER is empty) the result is
`"NONE"`/`"NO_LEAP"`; otherwise the dominant layer is the first critical
layer attaining the maximum structural power — every critical layer's power
is at most the dominant one's, and every critical layer listed before it in
enumeration order has strictly smaller power (ties go to the earlier
layer). -/
theorem integrated_dominant_layer_spec (p : SSDParametersV5)
    (s : SSDStateV5) (powers : PowersV5) :
    (criticalList p s powers = [] →
      (integrated_leap_detection p s powers).dominant_layer = "NONE" ∧
      (integrated_leap_detection p s powers).leap_type = "NO_LEAP") ∧
    (∀ x xs, criticalList p s powers = x :: xs →
      ∃ dom l₁ l₂,
        (integrated_leap_detection p s powers).dominant_layer = dom.1 ∧
        (integrated_leap_detection p s powers).leap_type = "LEAP_" ++ dom.1 ∧
        x :: xs = l₁ ++ dom :: l₂ ∧
        (∀ y ∈ x :: xs, y.2 ≤ dom.2) ∧
        (∀ y ∈ l₁, y.2 < dom.2)) := by
  constructor
  · intro h
    constructor <;> simp [integrated_leap_detection, h]
  · intro x xs h
    obtain ⟨l₁, l₂, heq, hle, hlt⟩ := pickFirstMax_spec xs x
    exact ⟨pickFirstMax x xs, l₁, l₂,
      by simp [integrated_leap_detection, h],
      by simp [integrated_leap_detection, h],
      heq, hle, hlt⟩

/-- Witness for C6: with the default-initialized state every layer has zero
energy and zero structural power, all four layers are critical, and the
theorem applies to the four-element critical list. -/
theorem integrated_dominant_layer_spec_witness :
    criticalList {} {} (calculate_structural_powers {} 0 0 0 0)
        = [("PHYSICAL", 0), ("BASE", 0), ("CORE", 0), ("UPPER", 0)] ∧
    (∃ dom l₁ l₂,
      (integrated_leap_detection {} {} (calculate_structural_powers {} 0 0 0 0)).dominant_layer = dom.1 ∧
      (integrated_leap_detection {} {} (calculate_structural_powers {} 0 0 0 0)).leap_type = "LEAP_" ++ dom.1 ∧
      (("PHYSICAL", (0:ℚ)) :: [("BASE", 0), ("CORE", 0), ("UPPER", 0)])
          = l₁ ++ dom :: l₂ ∧
      (∀ y ∈ (("PHYSICAL", (0:ℚ)) :: [("BASE", 0), ("CORE", 0), ("UPPER", 0)]), y.2 ≤ dom.2) ∧
      (∀ y ∈ l₁, y.2 < dom.2)) := by
  have hlist : criticalList {} {} (calculate_structural_powers {} 0 0 0 0)
      = [("PHYSICAL", 0), ("BASE", 0), ("CORE", 0), ("UPPER", 0)] := by
    norm_num [criticalList, calculate_structural_powers, compute_dynamic_theta,
      max_def, min_def]
  exact ⟨hlist,
    (integrated_dominant_layer_spec {} {} (calculate_structural_powers {} 0 0 0 0)).2
      ("PHYSICAL", 0) [("BASE", 0), ("CORE", 0), ("UPPER", 0)] hlist⟩

/-- Hazard rate of `check_probabilistic_jump`
(`ssd_werewolf_game_v3.py`, lines 321-341): the baseline `h0` when energy is
at or above the critical threshold, exponentially amplified by
`exp((Theta - E)/gamma)` below it. -/
noncomputable def hazard_rate (h0 gamma Theta E : ℝ) : ℝ :=
  if E < Theta then h0 * Real.exp ((Theta - E) / gamma) else h0

/-- Per-tick jump probability of `check_probabilistic_jump`:
`P = 1 - exp(-h*dt)`. -/
noncomputable def jump_probability (h0 gamma Theta E dt : ℝ) : ℝ :=
  1 - Real.exp (-(hazard_rate h0 gamma Theta E * dt))

/-- Constants hard-coded in `check_probabilistic_jump`: base firing rate
`h0 = 0.01`, sensitivity `gamma = 50`, tick `dt = 0.1`. -/
noncomputable def jump_probability_v3 (Theta E : ℝ) : ℝ :=
  jump_probability (1/100) 50 Theta E (1/10)

/-- C7: the per-tick jump probability is `1 - exp(-h*dt)` with
`h = h0 * exp((Theta-E)/gamma)` below threshold and `h = h0` otherwise; it
is strictly positive for every energy, strictly larger at `E = Theta - eps`
than at `E = Theta` for every `eps > 0`, and at `E = Theta` it equals
`1 - exp(-h0*dt)`, which is below (approximately equal to) `h0*dt`. -/
theorem jump_probability_properties (h0 gamma Theta E dt eps : ℝ)
    (hh0 : 0 < h0) (hg : 0 < gamma) (hdt : 0 < dt) (heps : 0 < eps) :
    0 < jump_probability h0 gamma Theta E dt ∧
    jump_probability h0 gamma Theta Theta dt
      < jump_probability h0 gamma Theta (Theta - eps) dt ∧
    jump_probability h0 gamma Theta Theta dt = 1 - Real.exp (-(h0 * dt)) ∧
    jump_probability h0 gamma Theta Theta dt < h0 * dt := by
  have hhaz_pos : ∀ x : ℝ, 0 < hazard_rate h0 gamma Theta x := by
    intro x
    unfold hazard_rate
    split_ifs
    · exact mul_pos hh0 (Real.exp_pos _)
    · exact hh0
  have hat : hazard_rate h0 gamma Theta Theta = h0 := by
    unfold hazard_rate
    rw [if_neg (lt_irrefl Theta)]
  have hdiff : Theta - (Theta - eps) = eps := by ring
  have hbelow : hazard_rate h0 gamma Theta (Theta - eps)
      = h0 * Real.exp (eps / gamma) := by
    unfold hazard_rate
    rw [if_pos (by linarith), hdiff]
  have hbigger : h0 < hazard_rate h0 gamma Theta (Theta - eps) := by
    rw [hbelow]
    have h1 : 1 < Real.exp (eps / gamma) :=
      Real.one_lt_exp_iff.mpr (div_pos heps hg)
    nlinarith
  refine ⟨?_, ?_, ?_, ?_⟩
  · unfold jump_probability
    have hlt : Real.exp (-(hazard_rate h0 gamma Theta E * dt)) < 1 :=
      Real.exp_lt_one_iff.mpr (by nlinarith [hhaz_pos E])
    linarith
  · unfold jump_probability
    have hmono : Real.exp (-(hazard_rate h0 gamma Theta (Theta - eps) * dt))
        < Real.exp (-(hazard_rate h0 gamma Theta Theta * dt)) := by
      rw [Real.exp_lt_exp]
      rw [hat]
      nlinarith
    linarith
  · unfold jump_probability
    rw [hat]
  · unfold jump_probability
    rw [hat]
    have hx : -(h0 * dt) ≠ 0 := by nlinarith
    have := Real.add_one_lt_exp hx
    linarith

/-- Witness for C7 at the source's hard-coded constants
(`h0 = 0.01`, `gamma = 50`, `dt = 0.1`) with `Theta = 100`, `E = 30`,
`eps = 1`. -/
theorem jump_probability_properties_witness :
    (0 : ℝ) < 1/100 ∧ (0 : ℝ) < 50 ∧ (0 : ℝ) < 1/10 ∧ (0 : ℝ) < 1 ∧
    (0 < jump_probability (1/100) 50 100 30 (1/10) ∧
     jump_probability (1/100) 50 100 100 (1/10)
       < jump_probability (1/100) 50 100 (100 - 1) (1/10) ∧
     jump_probability (1/100) 50 100 100 (1/10)
       = 1 - Real.exp (-((1/100) * (1/10))) ∧
     jump_probability (1/100) 50 100 100 (1/10) < (1/100) * (1/10)) :=
  ⟨by norm_num, by norm_num, by norm_num, by norm_num,
   jump_probability_properties (1/100) 50 100 30 (1/10) 1
     (by norm_num) (by norm_num) (by norm_num) (by norm_num)⟩
